import Mathlib

/-!
Verification development for the `state-tracker` repository.

The Rust sources under `src/` are embedded shallowly:
* `src/state.rs` → `State`, `State.is_error`
* `src/tracked_data.rs` → `SystemTime`, `TrackedData`, `generate_state_tracking_data`
* `src/state_tracker_client.rs` → `StateTrackerClient`, `send_state`, `set_id`,
  `clone`, `build`
* `src/state_tracker.rs` → `StateTracker.try_new`, the run loop as `runStep`
* the wire format produced by `serde_json` on the derived `Serialize` impls →
  `Json`, `encodeState`, `encodeTrackedData`, `decodeState`, `decodeTrackedData`

Time is modelled in whole seconds: the monotonic clock (`tokio::time::Instant`)
as a `Nat`, the wall clock (`std::time::SystemTime`) as seconds and nanoseconds
since the epoch, which is exactly the granularity the code observes
(`elapsed().as_secs()` and serde's `secs_since_epoch`/`nanos_since_epoch`).
The mpsc channel is modelled by its observable side: a `Bool` saying whether a
send can succeed (some receiver alive) for the client, and a `ChannelState`
(pending messages plus a closed flag) for the forwarder's receiving end.
-/

namespace StateTracking

/-- State enum from src/state.rs: Idle, Valid, or Error carrying a message. -/
inductive State where
  | Idle
  | Valid
  | Error (message : String)
deriving DecidableEq, Repr

/-- Predicate from src/state.rs: `matches!(self, State::Error(_))`. -/
def State.is_error : State → Bool
  | State.Error _ => true
  | _ => false

/-- Wall-clock timestamp, as serde serializes std::time::SystemTime: whole
seconds and nanoseconds since the Unix epoch. -/
structure SystemTime where
  secs_since_epoch : Nat
  nanos_since_epoch : Nat
deriving DecidableEq, Repr

/-- TrackedData from src/tracked_data.rs: id, state and capture timestamp. -/
structure TrackedData where
  id : String
  state : State
  timestamp : SystemTime
deriving DecidableEq, Repr

/-- Constructor TrackedData::new from src/tracked_data.rs. -/
def TrackedData.new (id : String) (state : State) (timestamp : SystemTime) : TrackedData :=
  ⟨id, state, timestamp⟩

/-- Free function generate_state_tracking_data from src/tracked_data.rs:
builds a TrackedData from the id, the state and the current wall-clock time
(the `SystemTime::now()` value is passed in explicitly). -/
def generate_state_tracking_data (id : String) (state : State) (now : SystemTime) : TrackedData :=
  TrackedData.new id state now

/-- Modelled from the spec: the repository's error module (`crate::error`,
used as `Error::new(ErrorKind::InternalFailure, message)`) is not under src/.
The spec describes a recoverable error carrying a kind and the underlying
cause, so the kind is an enumeration with the one kind the sources use. -/
inductive ErrorKind where
  | InternalFailure
deriving DecidableEq, Repr

/-- Modelled from the spec: error value with a kind and a human-readable
message carrying the underlying cause. -/
structure Error where
  kind : ErrorKind
  message : String
deriving DecidableEq, Repr

/-- Modelled from the spec: constructor matching the sources' call shape
`Error::new(kind, message)`. -/
def Error.new (kind : ErrorKind) (message : String) : Error :=
  ⟨kind, message⟩

/-- Display text of tokio's SendError, interpolated by send_state into its
failure message when the channel is closed. -/
def sendErrorDisplay : String := "channel closed"

/-- StateTrackerClient from src/state_tracker_client.rs. The shared
`tokio::sync::mpsc::Sender` is modelled by a channel identifier: derive(Clone)
clones the Sender, which still refers to the same channel, so the identifier is
copied as-is. `latest_update` is the `tokio::time::Instant` field, as a
monotonic-clock second count. -/
structure StateTrackerClient where
  id : String
  state_sender : Nat
  latest_update : Nat
  update_interval_in_seconds : Nat
deriving DecidableEq, Repr

/-- Constructor StateTrackerClient::new: stores the id, the sender and the
interval, and initializes `latest_update` to `Instant::now()`, i.e. the
construction time `now`. -/
def StateTrackerClient.new (id : String) (state_sender : Nat)
    (update_interval_in_seconds : Nat) (now : Nat) : StateTrackerClient :=
  ⟨id, state_sender, now, update_interval_in_seconds⟩

/-- StateTrackerClient::set_id: overwrites the id field only. -/
def StateTrackerClient.set_id (c : StateTrackerClient) (id : String) : StateTrackerClient :=
  { c with id := id }

/-- derive(Clone) on StateTrackerClient: each field is cloned; the String and
the scalar fields become independent copies, the Sender clone shares the same
underlying channel (same identifier). -/
def StateTrackerClient.clone (c : StateTrackerClient) : StateTrackerClient :=
  ⟨c.id, c.state_sender, c.latest_update, c.update_interval_in_seconds⟩

/-- Observable outcome of one send_state call: the early-return suppression,
a successful enqueue of the constructed TrackedData, or a failed enqueue of it
(channel closed) yielding an error. -/
inductive SendOutcome where
  | suppressed
  | enqueued (tracked_data : TrackedData)
  | sendFailed (tracked_data : TrackedData) (e : Error)
deriving DecidableEq, Repr

/-- The Result<(), Error> value send_state returns for each outcome: Ok on
suppression and on a successful enqueue, the error on a failed enqueue. -/
def SendOutcome.result : SendOutcome → Except Error Unit
  | SendOutcome.suppressed => Except.ok ()
  | SendOutcome.enqueued _ => Except.ok ()
  | SendOutcome.sendFailed _ e => Except.error e

/-- The TrackedData a call attempted to hand to the queue, if it got past the
suppression check. -/
def SendOutcome.attemptedData : SendOutcome → Option TrackedData
  | SendOutcome.suppressed => none
  | SendOutcome.enqueued td => some td
  | SendOutcome.sendFailed td _ => some td

/-- StateTrackerClient::send_state from src/state_tracker_client.rs.
`now` is the current monotonic-clock second (`Instant::now()`), so
`now - c.latest_update` is `self.latest_update.elapsed().as_secs()`; `wall` is
`SystemTime::now()` used for the TrackedData timestamp; `queueOpen` says
whether `state_sender.send` can succeed (the StateTracker receiver is alive).
The method takes `&self`, so the client value is returned unchanged. -/
def send_state (c : StateTrackerClient) (state : State) (now : Nat)
    (wall : SystemTime) (queueOpen : Bool) : SendOutcome × StateTrackerClient :=
  let outcome :=
    if state.is_error = false ∧ now - c.latest_update < c.update_interval_in_seconds then
      SendOutcome.suppressed
    else
      let tracked_data := generate_state_tracking_data c.id state wall
      if queueOpen then
        SendOutcome.enqueued tracked_data
      else
        SendOutcome.sendFailed tracked_data
          (Error.new ErrorKind.InternalFailure
            ("failed to send state to state tracker: " ++ sendErrorDisplay))
  (outcome, c)

/-- Runs a sequence of send_state calls, threading the client through; each
call is tagged with its monotonic time in seconds, and the wall clock is taken
at the same second. -/
def runCalls (c : StateTrackerClient) (calls : List (State × Nat))
    (queueOpen : Bool) : List SendOutcome × StateTrackerClient :=
  match calls with
  | [] => ([], c)
  | (s, t) :: rest =>
    let step := send_state c s t ⟨t, 0⟩ queueOpen
    let remaining := runCalls step.2 rest queueOpen
    (step.1 :: remaining.1, remaining.2)

/-- StateTracker from src/state_tracker.rs; the bound UnixDatagram socket is
abstracted away, the stored receiver path is kept. -/
structure StateTracker where
  output_receiver_path : String
deriving DecidableEq, Repr

/-- StateTracker::try_new: the result of `UnixDatagram::bind(output_sender_path)`
is passed in as `bindResult` (the OS outcome); on bind failure the function
returns an InternalFailure error wrapping the cause, otherwise the tracker. -/
def StateTracker.try_new (bindResult : Except String Unit)
    (output_receiver_path : String) : Except Error StateTracker :=
  match bindResult with
  | Except.ok _ => Except.ok ⟨output_receiver_path⟩
  | Except.error e =>
      Except.error (Error.new ErrorKind.InternalFailure
        ("failed to bind to output path: " ++ e))

/-- JSON values, the output domain of serde_json. Objects keep their field
order as emitted. -/
inductive Json where
  | str (s : String)
  | num (n : Nat)
  | obj (fields : List (String × Json))

/-- serde_json encoding of State under the derived Serialize impl (no serde
attributes): external tagging, so unit variants become their name as a JSON
string and the newtype variant becomes a one-field object keyed by the variant
name. -/
def encodeState : State → Json
  | State.Idle => Json.str "Idle"
  | State.Valid => Json.str "Valid"
  | State.Error m => Json.obj [("Error", Json.str m)]

/-- serde_json encoding of TrackedData under the derived Serialize impl: an
object with the three fields in declaration order; SystemTime serializes as an
object with secs_since_epoch and nanos_since_epoch. -/
def encodeTrackedData (d : TrackedData) : Json :=
  Json.obj
    [("id", Json.str d.id),
     ("state", encodeState d.state),
     ("timestamp",
        Json.obj
          [("secs_since_epoch", Json.num d.timestamp.secs_since_epoch),
           ("nanos_since_epoch", Json.num d.timestamp.nanos_since_epoch)])]

/-- serde_json decoding of State by the derived Deserialize impl, on the
shapes the encoder can emit. -/
def decodeState : Json → Option State
  | Json.str "Idle" => some State.Idle
  | Json.str "Valid" => some State.Valid
  | Json.obj [("Error", Json.str m)] => some (State.Error m)
  | _ => none

/-- serde_json decoding of TrackedData by the derived Deserialize impl, on the
canonical field order the encoder emits. -/
def decodeTrackedData : Json → Option TrackedData
  | Json.obj
      [("id", Json.str i),
       ("state", js),
       ("timestamp",
          Json.obj
            [("secs_since_epoch", Json.num secs),
             ("nanos_since_epoch", Json.num nanos)])] =>
      match decodeState js with
      | some s => some (TrackedData.new i s ⟨secs, nanos⟩)
      | none => none
  | _ => none

/-- Modelled from the spec: the wire shapes the spec prescribes for the state
field, a tag object with an optional message field. -/
def isSpecTaggedState : Json → Bool
  | Json.obj [("tag", Json.str "Idle")] => true
  | Json.obj [("tag", Json.str "Valid")] => true
  | Json.obj [("tag", Json.str "Error"), ("message", Json.str _)] => true
  | _ => false

/-- The shapes serde's external tagging actually produces for the state
field. -/
def isExternallyTaggedState : Json → Bool
  | Json.str "Idle" => true
  | Json.str "Valid" => true
  | Json.obj [("Error", Json.str _)] => true
  | _ => false

/-- Receiving end of the tokio mpsc channel as the run loop observes it:
the pending messages in FIFO order and whether every sender has been
dropped. `recv()` yields the head when one is pending, yields `None`
immediately when the queue is empty and closed, and suspends otherwise. -/
structure ChannelState where
  queued : List TrackedData
  closed : Bool
deriving DecidableEq, Repr

/-- One observable step of StateTracker::run's `loop`: either the iteration
completes and the loop continues with the new channel state (having emitted a
datagram when recv returned a message), or recv suspends awaiting input. The
loop body has no break, so no constructor of the code's step reaches
`halted`; that constructor exists to state termination. -/
inductive RunStep where
  | continued (ch : ChannelState) (emitted : Option Json)
  | blocked
  | halted

/-- The body of StateTracker::run from src/state_tracker.rs: recv a message
and forward its serde_json serialization to the output socket (send failures
are logged and do not change control flow), or, on `None` from a closed and
drained channel, do nothing (`None => ()`) and loop again. -/
def runStep (ch : ChannelState) : RunStep :=
  match ch.queued with
  | td :: rest => RunStep.continued ⟨rest, ch.closed⟩ (some (encodeTrackedData td))
  | [] => if ch.closed then RunStep.continued ch none else RunStep.blocked

/-- Datagrams emitted by the first `n` completing iterations of the run
loop. -/
def runEmitted : Nat → ChannelState → List Json
  | 0, _ => []
  | Nat.succ n, ch =>
    match runStep ch with
    | RunStep.continued ch2 (some j) => j :: runEmitted n ch2
    | RunStep.continued ch2 none => runEmitted n ch2
    | _ => []

/-- Outcome of the background task spawned by `build`: either the forwarder
is running, or the task panicked during setup. -/
inductive TaskOutcome where
  | running
  | panicked (msg : String)
deriving DecidableEq, Repr

/-- StateTrackingConfig from src/state_tracking_config.rs. -/
structure StateTrackingConfig where
  state_output_sender_path : String
  state_output_receiver_path : String
  state_sender_interval_in_seconds : Nat
deriving DecidableEq, Repr

/-- What the build function yields: the client it returns to the caller and
the state of the background forwarder task it spawned. -/
structure BuildResult where
  client : StateTrackerClient
  forwarderTask : TaskOutcome
deriving DecidableEq, Repr

/-- The free function `build` from src/state_tracker_client.rs: it creates a
channel (identifier 0 for the fresh channel), spawns a task that constructs
the StateTracker — panicking inside that task if try_new fails — and
unconditionally returns a client with id "default". `bindResult` is the OS
outcome of the bind performed inside the spawned task; `now` is the monotonic
time at which the client is constructed. -/
def build (bindResult : Except String Unit) (cfg : StateTrackingConfig)
    (state_tracking_channel_boundary : Nat) (now : Nat) : BuildResult :=
  { client :=
      StateTrackerClient.new "default" 0 cfg.state_sender_interval_in_seconds now
    forwarderTask :=
      match StateTracker.try_new bindResult cfg.state_output_receiver_path with
      | Except.ok _ => TaskOutcome.running
      | Except.error e =>
          TaskOutcome.panicked ("failed to initialize state tracker: " ++ e.message) }

/-- The call sequence of the end-to-end scenario from the spec, tagged with
the monotonic second of each call. -/
def scenarioCalls : List (State × Nat) :=
  [(State.Idle, 0), (State.Valid, 2), (State.Error "disk full", 2),
   (State.Idle, 3), (State.Idle, 6)]

/-- C1: the claim says an enqueuing send_state call updates latest_update to
the enqueue time. The code's send_state takes an immutable reference and never
writes latest_update: every call returns the client unchanged, and in
particular the enqueuing Error call at t=2 on a fresh client leaves
latest_update at 0 rather than advancing it to 2. -/
theorem send_state_leaves_latest_update_unchanged :
    (∀ (c : StateTrackerClient) (s : State) (now : Nat) (wall : SystemTime) (q : Bool),
        (send_state c s now wall q).2 = c) ∧
    (send_state (StateTrackerClient.new "id" 0 5 0) (State.Error "disk full") 2 ⟨2, 0⟩ true).1 =
      SendOutcome.enqueued (TrackedData.new "id" (State.Error "disk full") ⟨2, 0⟩) ∧
    ((send_state (StateTrackerClient.new "id" 0 5 0) (State.Error "disk full") 2 ⟨2, 0⟩ true).2).latest_update = 0 :=
  ⟨fun _ _ _ _ _ => rfl, by decide, rfl⟩

/-- C2: the claim says the run loop terminates cleanly once the channel is
closed and drained. The code's loop has no exit: no channel state makes a step
halt, and on a closed, drained channel the `None => ()` arm completes an
iteration that leaves the state unchanged, so the loop spins forever. The
drain half of the claim does hold: with the channel closed, the pending
messages are all emitted, in order, by that many iterations. -/
theorem run_loop_never_terminates :
    (∀ (ch : ChannelState), runStep ch ≠ RunStep.halted) ∧
    runStep ⟨[], true⟩ = RunStep.continued ⟨[], true⟩ none ∧
    (∀ (msgs : List TrackedData),
        runEmitted msgs.length ⟨msgs, true⟩ = msgs.map encodeTrackedData) := by
  refine ⟨?_, rfl, ?_⟩
  · intro ch
    cases h : ch.queued with
    | nil =>
        simp only [runStep, h]
        split <;> simp
    | cons td rest => simp [runStep, h]
  · intro msgs
    induction msgs with
    | nil => rfl
    | cons td rest ih => simp [runEmitted, runStep, ih]

/-- C3: a non-error state sent while less than update_interval_in_seconds of
monotonic time have elapsed since latest_update is suppressed: send_state
returns Ok, pushes nothing onto the queue, and leaves the client unchanged. -/
theorem non_error_within_interval_is_noop :
    ∀ (c : StateTrackerClient) (s : State) (now : Nat) (wall : SystemTime) (q : Bool),
      s.is_error = false →
      now - c.latest_update < c.update_interval_in_seconds →
      send_state c s now wall q = (SendOutcome.suppressed, c) ∧
      (send_state c s now wall q).1.result = Except.ok () := by
  intro c s now wall q hErr hElapsed
  have hcond : s.is_error = false ∧ now - c.latest_update < c.update_interval_in_seconds :=
    ⟨hErr, hElapsed⟩
  constructor
  · simp only [send_state, if_pos hcond]
  · simp only [send_state, if_pos hcond, SendOutcome.result]

/-- Witness for C3: a fresh client with interval 5 sending Idle at t = 2 is
suppressed. -/
theorem non_error_within_interval_is_noop_witness :
    State.Idle.is_error = false ∧
    2 - (StateTrackerClient.new "id" 7 5 0).latest_update <
      (StateTrackerClient.new "id" 7 5 0).update_interval_in_seconds ∧
    send_state (StateTrackerClient.new "id" 7 5 0) State.Idle 2 ⟨2, 0⟩ true =
      (SendOutcome.suppressed, StateTrackerClient.new "id" 7 5 0) :=
  ⟨rfl, by decide,
    (non_error_within_interval_is_noop (StateTrackerClient.new "id" 7 5 0)
      State.Idle 2 ⟨2, 0⟩ true rfl (by decide)).1⟩

/-- C4: an Error state is never suppressed: whatever the elapsed time and the
call history, send_state gets past the rate-limit check and attempts to
enqueue a freshly built TrackedData carrying exactly that error under the
client's id (every call builds a new message, so identical repeated errors are
each attempted — no deduplication). -/
theorem error_states_bypass_suppression :
    ∀ (c : StateTrackerClient) (m : String) (now : Nat) (wall : SystemTime) (q : Bool),
      (send_state c (State.Error m) now wall q).1 ≠ SendOutcome.suppressed ∧
      ((send_state c (State.Error m) now wall q).1).attemptedData =
        some (TrackedData.new c.id (State.Error m) wall) := by
  intro c m now wall q
  have hcond : ¬((State.Error m).is_error = false ∧
      now - c.latest_update < c.update_interval_in_seconds) := by
    intro h
    exact absurd h.1 (by simp [State.is_error])
  cases q <;>
    simp [send_state, if_neg hcond, SendOutcome.attemptedData,
      generate_state_tracking_data, TrackedData.new]

/-- C5: the end-to-end scenario, run under the code's semantics on a fresh
client with interval 5 constructed at t = 0: the Idle at t = 0 is suppressed
(latest_update starts at the construction instant, so 0 seconds have elapsed),
Valid at t = 2 and Idle at t = 3 are suppressed, the Error at t = 2 is
enqueued, and the Idle at t = 6 is enqueued (latest_update never advances, so
6 seconds have elapsed) — not the delivered/suppressed pattern the claim
states for t = 0 and t = 6. -/
theorem scenario_outcomes_under_code :
    (runCalls (StateTrackerClient.new "client" 0 5 0) scenarioCalls true).1 =
      [SendOutcome.suppressed,
       SendOutcome.suppressed,
       SendOutcome.enqueued (TrackedData.new "client" (State.Error "disk full") ⟨2, 0⟩),
       SendOutcome.suppressed,
       SendOutcome.enqueued (TrackedData.new "client" State.Idle ⟨6, 0⟩)] := by
  decide

/-- C6 counterexample: the Forwarder serializes TrackedData with serde_json's
derived impl, whose external tagging renders the state field of an Idle
message as the JSON string "Idle" — not one of the three tag-object shapes the
claim prescribes. -/
theorem idle_state_field_is_not_tag_object :
    encodeTrackedData (TrackedData.new "t" State.Idle ⟨0, 0⟩) =
      Json.obj
        [("id", Json.str "t"),
         ("state", Json.str "Idle"),
         ("timestamp",
            Json.obj [("secs_since_epoch", Json.num 0), ("nanos_since_epoch", Json.num 0)])] ∧
    isSpecTaggedState (Json.str "Idle") = false :=
  ⟨rfl, rfl⟩

/-- C6 amended: in every emitted datagram the state field is encoded with
serde's external tagging — exactly one of the shapes "Idle", "Valid", or an
object with the single field "Error" holding the message string. -/
theorem state_field_is_externally_tagged :
    (∀ (s : State), isExternallyTaggedState (encodeState s) = true) ∧
    (∀ (d : TrackedData),
        encodeTrackedData d =
          Json.obj
            [("id", Json.str d.id),
             ("state", encodeState d.state),
             ("timestamp",
                Json.obj
                  [("secs_since_epoch", Json.num d.timestamp.secs_since_epoch),
                   ("nanos_since_epoch", Json.num d.timestamp.nanos_since_epoch)])]) := by
  constructor
  · intro s
    cases s <;> rfl
  · intro d
    rfl

/-- C7: when a call gets past the suppression check and the queue is closed,
send_state returns an error of kind InternalFailure whose message wraps the
underlying cause; the failure is surfaced in the returned Result, never
swallowed. -/
theorem closed_queue_send_surfaces_internal_failure :
    ∀ (c : StateTrackerClient) (s : State) (now : Nat) (wall : SystemTime),
      ¬(s.is_error = false ∧ now - c.latest_update < c.update_interval_in_seconds) →
      (send_state c s now wall false).1 =
        SendOutcome.sendFailed (TrackedData.new c.id s wall)
          (Error.new ErrorKind.InternalFailure
            ("failed to send state to state tracker: " ++ sendErrorDisplay)) ∧
      ((send_state c s now wall false).1).result =
        Except.error (Error.new ErrorKind.InternalFailure
          ("failed to send state to state tracker: " ++ sendErrorDisplay)) ∧
      (Error.new ErrorKind.InternalFailure
          ("failed to send state to state tracker: " ++ sendErrorDisplay)).kind =
        ErrorKind.InternalFailure := by
  intro c s now wall hcond
  refine ⟨?_, ?_, rfl⟩ <;>
    simp [send_state, if_neg hcond, SendOutcome.result,
      generate_state_tracking_data, TrackedData.new]

/-- Witness for C7: an Error state sent on a closed queue yields the
InternalFailure error. -/
theorem closed_queue_send_surfaces_internal_failure_witness :
    (¬((State.Error "boom").is_error = false ∧
        2 - (StateTrackerClient.new "id" 0 5 0).latest_update <
          (StateTrackerClient.new "id" 0 5 0).update_interval_in_seconds)) ∧
    ((send_state (StateTrackerClient.new "id" 0 5 0) (State.Error "boom") 2 ⟨2, 0⟩ false).1).result =
      Except.error (Error.new ErrorKind.InternalFailure
        ("failed to send state to state tracker: " ++ sendErrorDisplay)) :=
  ⟨by decide,
    (closed_queue_send_surfaces_internal_failure (StateTrackerClient.new "id" 0 5 0)
      (State.Error "boom") 2 ⟨2, 0⟩ (by decide)).2.1⟩

/-- C8 counterexample: build invoked with a failing bind still hands its
caller a fully usable client (no error is returned synchronously); the bind
failure only panics the spawned background task, leaving the system
half-initialized — a client whose forwarder is dead. -/
theorem build_swallows_bind_failure :
    (build (Except.error "address already in use")
        ⟨"sender.sock", "receiver.sock", 5⟩ 16 0).client =
      StateTrackerClient.new "default" 0 5 0 ∧
    (build (Except.error "address already in use")
        ⟨"sender.sock", "receiver.sock", 5⟩ 16 0).forwarderTask =
      TaskOutcome.panicked
        "failed to initialize state tracker: failed to bind to output path: address already in use" := by
  constructor <;> rfl

/-- C8 amended: StateTracker::try_new does return the bind error
synchronously, wrapped as an InternalFailure; the build function does not —
it always returns a client, and a bind failure merely panics the spawned
forwarder task. -/
theorem bind_failure_handling :
    (∀ (e : String) (recvPath : String),
        StateTracker.try_new (Except.error e) recvPath =
          Except.error (Error.new ErrorKind.InternalFailure
            ("failed to bind to output path: " ++ e))) ∧
    (∀ (bindResult : Except String Unit) (cfg : StateTrackingConfig) (b now : Nat),
        (build bindResult cfg b now).client =
          StateTrackerClient.new "default" 0 cfg.state_sender_interval_in_seconds now) ∧
    (∀ (e : String) (cfg : StateTrackingConfig) (b now : Nat),
        (build (Except.error e) cfg b now).forwarderTask =
          TaskOutcome.panicked
            ("failed to initialize state tracker: failed to bind to output path: " ++ e)) := by
  refine ⟨fun e recvPath => rfl, fun bindResult cfg b now => rfl, fun e cfg b now => rfl⟩

/-- C9: serializing any TrackedData the way the Forwarder does and decoding
the result with the same format reproduces the id, the state (variant and
message) and the timestamp exactly. -/
theorem tracked_data_round_trip :
    ∀ (d : TrackedData), decodeTrackedData (encodeTrackedData d) = some d := by
  intro d
  obtain ⟨i, s, secs, nanos⟩ := d
  cases s <;> rfl

/-- C10: cloning a StateTrackerClient copies every field, so clones share the
queue handle but own independent id and latest_update values; set_id rewrites
only the id field, leaving the queue handle, latest_update and the interval of
the clone it is called on unchanged, and renaming a clone never touches the
original's id. -/
theorem clone_and_set_id_frame :
    ∀ (c : StateTrackerClient) (i : String),
      c.clone = c ∧
      (c.set_id i).id = i ∧
      (c.set_id i).state_sender = c.state_sender ∧
      (c.set_id i).latest_update = c.latest_update ∧
      (c.set_id i).update_interval_in_seconds = c.update_interval_in_seconds ∧
      ((c.clone).set_id i).id = i ∧
      ((c.clone).set_id i).latest_update = c.latest_update :=
  fun c i => ⟨rfl, rfl, rfl, rfl, rfl, rfl, rfl⟩

end StateTracking
